import Mathlib

/-!
Verification of the prism hub contract (liquid-staking accounting core).

Shallow embedding of `contracts/prism_hub/src/{contract,autho_compounding,
config,utility,math}.rs` and `packages/prism-protocol/src/hub.rs`.

Modelling conventions:
* `Uint128` amounts are `Nat`; panics on 128-bit overflow are not modelled
  (they abort the transaction and none of the verified properties concern
  overflowing runs).
* cosmwasm `Decimal` values are modelled by their atomic representation:
  a `Nat` scaled by `DECIMAL_FRACTIONAL = 10^18` (so `Decimal::one()` is
  `10^18` and `Decimal::from_ratio(a, b)` is `a * 10^18 / b`, rounding down).
* A handler returns `Except String (result)`; `.error` models an aborted
  transaction: no state is persisted and no instruction is emitted
  (cosmwasm unwinds every write of a failed execution).  Rust panics
  (`unwrap`, `expect`, `gen_range` on an empty range) are rendered as
  `.error "panic: ..."` since a contract panic likewise aborts the
  transaction.
* The querier results (bank balances, delegations, receipt-token total
  supply, validator set) are inputs of each transition, packaged in
  `Querier`.
* `rand : Nat → Nat → Nat` stands for the library call
  `XorShiftRng::seed_from_u64(block_height).gen_range(0, len)`: a
  deterministic function of the consensus-visible block height and the
  sampled range.  The PRNG itself is `rand`-crate library code, not
  repository code, so it is kept as a parameter; theorems that need
  in-range sampling state it via the `List.get?` result.
-/

namespace PrismHub

/-- cosmwasm `Coin`: a denomination and a `Uint128` amount. -/
structure Coin where
  denom : String
  amount : Nat
deriving DecidableEq, Repr

/-- One delegation of the hub toward a validator, as returned by
`query_all_delegations` / `query_delegation` (the `amount` is the
delegated `Coin`). -/
structure Delegation where
  validator : String
  amount : Coin
deriving DecidableEq, Repr

/-- `basset::hub::State` (the persisted `STATE` item). -/
structure State where
  exchange_rate : Nat
  second_exchange_rate : Nat
  total_bond_amount : Nat
  last_index_modification : Nat
  prev_hub_balance : Nat
  actual_unbonded_amount : Nat
  principle_balance_before_exchange_update : Nat
  last_unbonded_time : Nat
  last_processed_batch : Nat
deriving DecidableEq, Repr

/-- The persisted `CONFIG` item, as written by `instantiate` in
`contract.rs` (token registration flag, receipt-token address, protocol
fee collector).  Addresses are kept as `String`. -/
structure Config where
  token_contract_registered : Bool
  token_contract : Option String
  protocol_fee_collector : Option String
deriving DecidableEq, Repr

/-- `basset::hub::Parameters` (the persisted `PARAMETERS` item).
Fee/threshold fields are Decimal atomics. -/
structure Parameters where
  epoch_period : Nat
  underlying_coin_denom : String
  unbonding_period : Nat
  peg_recovery_fee : Nat
  er_threshold : Nat
  protocol_fee : Nat
deriving DecidableEq, Repr

/-- `basset::hub::CurrentBatch` (the persisted `CURRENT_BATCH` item). -/
structure CurrentBatch where
  id : Nat
  requested_with_fee : Nat
deriving DecidableEq, Repr

/-- `basset::hub::InstantiateMsg`. -/
structure InstantiateMsg where
  epoch_period : Nat
  underlying_coin_denom : String
  unbonding_period : Nat
  peg_recovery_fee : Nat
  er_threshold : Nat
  validator : String
  protocol_fee : Nat
deriving DecidableEq, Repr

/-- `basset::gov::WeightedVoteOption` (a governance vote option id with a
weight, both passed through opaquely by the hub). -/
structure WeightedVoteOption where
  option : Int
  weight : String
deriving DecidableEq, Repr

/-- The whole persisted store of the hub contract: pause flag, admin
identity (`cw_controllers::Admin`), `CONFIG`, `STATE`, `PARAMETERS`,
`CURRENT_BATCH` and the validator whitelist. -/
structure ContractState where
  paused : Bool
  admin : String
  config : Config
  state : State
  parameters : Parameters
  current_batch : CurrentBatch
  whitelist : List String
deriving DecidableEq, Repr

/-- The relevant parts of cosmwasm `Env`. -/
structure Env where
  contract_address : String
  block_height : Nat
  block_time_seconds : Nat
deriving DecidableEq, Repr

/-- The external observations a transition may query: the hub's bank
balances, its delegations, the receipt token's total supply
(`query_total_issued`), the chain's validator set, and per-validator
delegation lookup. -/
structure Querier where
  balances : List Coin
  delegations : List Delegation
  total_issued : Nat
  validators : List String
  delegation : String → Option Delegation

/-- Self-addressed wasm-execute payloads the hub sends to itself. -/
inductive SelfMsg where
  | UpdateExchangeRate
  | UpdateGlobalIndex
  | RegisterValidator (validator : String)
deriving DecidableEq, Repr

/-- Outgoing instructions (`CosmosMsg`/`SubMsg`) of a transition. -/
inductive CosmosMsg where
  | Delegate (validator : String) (amount : Coin)
  | Redelegate (src_validator dst_validator : String) (amount : Coin)
  | WithdrawDelegatorReward (validator : String)
  | ExecuteSelf (contract_addr : String) (msg : SelfMsg)
  | BankSend (to_address : String) (amount : List Coin)
  | VoteWeighted (proposal : Nat) (voter : String) (options : List WeightedVoteOption)
deriving DecidableEq, Repr

/-- `ExecuteMsg`, as dispatched by `execute` in `contract.rs`.
`Receive` carries the already-parsed `Cw20HookMsg::Unbond` payload
(the burning user and amount). -/
inductive ExecuteMsg where
  | Pause
  | Unpause
  | Receive (user : String) (amount : Nat)
  | Bond (validator : String)
  | UpdateGlobalIndex
  | UpdateExchangeRate
  | WithdrawUnbonded
  | RegisterValidator (validator : String)
  | DeregisterValidator (validator : String)
  | CheckSlashing
  | UpdateParams (epoch_period unbonding_period peg_recovery_fee er_threshold protocol_fee : Option Nat)
  | UpdateConfig (token_contract protocol_fee_collector : Option String)
  | UpdateAdmin (admin : String)
  | Vote (proposal : Nat) (options : List WeightedVoteOption)
deriving DecidableEq, Repr

/-! ## Decimal arithmetic -/

/-- cosmwasm `Decimal`'s scale: `10^18` atomics per unit. -/
def DECIMAL_FRACTIONAL : Nat := 1000000000000000000

/-- `Decimal::one()` in atomics. -/
def decimalOne : Nat := DECIMAL_FRACTIONAL

/-- `Decimal::from_ratio(a, b)` in atomics (rounds down). -/
def fromRatio (a b : Nat) : Nat := a * DECIMAL_FRACTIONAL / b

/-- `math::decimal_summation_in_256`: addition carried out in 256 bits, so
no overflow occurs for any pair of `Decimal` operands; on atomics it is
plain addition. -/
def decimal_summation_in_256 (a b : Nat) : Nat := a + b

/-! ## Querier helpers -/

/-- cosmwasm `query_balance(addr, denom)`: the held amount of `denom`,
zero when the address holds none. -/
def queryBalance (balances : List Coin) (denom : String) : Nat :=
  match balances.find? (fun c => c.denom == denom) with
  | some c => c.amount
  | none => 0

/-- The loop of `slashing` in `contract.rs`: sum of all delegated amounts
whose denom is the underlying coin denom ("the observed actual bonded
amount"). -/
def actualTotalBonded (delegations : List Delegation) (denom : String) : Nat :=
  delegations.foldl
    (fun acc d => if d.amount.denom == denom then acc + d.amount.amount else acc) 0

/-! ## State methods -/

/-- `State::update_exchange_rate` from `packages/prism-protocol/src/hub.rs`:
`exchange_rate := total_bond_amount / (total_issued + requested_with_fee)`,
falling back to one when either side is zero. -/
def State.update_exchange_rate (s : State) (total_issued requested_with_fee : Nat) : State :=
  let actual_supply := total_issued + requested_with_fee
  if s.total_bond_amount = 0 ∨ actual_supply = 0 then
    { s with exchange_rate := decimalOne }
  else
    { s with exchange_rate := fromRatio s.total_bond_amount actual_supply }

/-! ## utility.rs -/

def MAINNET_UNDELEGATION_TIME : Nat := 1814400

def COIN_DENOM : String := "uluna"

/-- `utility::validate_params`, translated faithfully: every check merely
CONSTRUCTS a `StdError::generic_err(..)` value and discards it (the source
has no `return Err(..)` and no `?`), so the function always returns
`Ok(())`.  The discarded error values are kept as dead `let` bindings to
mirror the source's five checks (note the source checks `er_threshold`,
`protocol_fee`, the periods and the denom, and never checks
`peg_recovery_fee` at all). -/
def validate_params (msg : InstantiateMsg) : Except String Unit :=
  let _e1 : Option String :=
    if MAINNET_UNDELEGATION_TIME < msg.epoch_period then
      some "epoch period cannot be more than mainnet undelegation period" else none
  let _e2 : Option String :=
    if msg.er_threshold < decimalOne then
      some "exchange rate threshold should be more than one" else none
  let _e3 : Option String :=
    if decimalOne < msg.protocol_fee then
      some "Protocol fee should not be more than 1" else none
  let _e4 : Option String :=
    if MAINNET_UNDELEGATION_TIME < msg.unbonding_period then
      some "unbonding period cannot be more than mainnet undelegation period" else none
  let _e5 : Option String :=
    if msg.underlying_coin_denom ≠ COIN_DENOM then
      some "underlying coin denom should be uluna" else none
  .ok ()

/-! ## instantiate -/

/-- `instantiate` from `contract.rs`: requires a positive payment in the
underlying denom, stores pause = false, admin = sender, an empty `Config`,
the initial `State` (exchange rates one, `total_bond_amount` = payment),
runs (the no-op) `validate_params`, stores `Parameters` from the message
and batch `{id := 1, requested_with_fee := 0}`, and emits a self-call
registering the given validator followed by a delegate instruction of the
payment to it. -/
def instantiate (env : Env) (sender : String) (funds : List Coin)
    (msg : InstantiateMsg) : Except String (ContractState × List CosmosMsg) :=
  match funds.find? (fun x => x.denom == msg.underlying_coin_denom && decide (0 < x.amount)) with
  | none => .error "No uluna assets are provided to bond"
  | some payment =>
    match validate_params msg with
    | .error e => .error e
    | .ok _ =>
      let cs : ContractState := {
        paused := false
        admin := sender
        config := { token_contract_registered := false
                    token_contract := none
                    protocol_fee_collector := none }
        state := { exchange_rate := decimalOne
                   second_exchange_rate := decimalOne
                   total_bond_amount := payment.amount
                   last_index_modification := env.block_time_seconds
                   prev_hub_balance := 0
                   actual_unbonded_amount := 0
                   principle_balance_before_exchange_update := 0
                   last_unbonded_time := env.block_time_seconds
                   last_processed_batch := 0 }
        parameters := { epoch_period := msg.epoch_period
                        underlying_coin_denom := msg.underlying_coin_denom
                        unbonding_period := msg.unbonding_period
                        peg_recovery_fee := msg.peg_recovery_fee
                        er_threshold := msg.er_threshold
                        protocol_fee := msg.protocol_fee }
        current_batch := { id := 1, requested_with_fee := 0 }
        whitelist := [] }
      .ok (cs, [CosmosMsg.ExecuteSelf env.contract_address (SelfMsg.RegisterValidator msg.validator),
                CosmosMsg.Delegate msg.validator payment])

/-! ## autho_compounding.rs -/

/-- The delegate instruction that `execute_update_exchange_rate`
constructs — and then drops: the source builds
`vec![CosmosMsg::Staking(StakingMsg::Delegate {..})]` targeting the
delegation at the pseudo-random index but returns
`Response::new().add_attributes(..)` without ever attaching the vector.
`none` models the panics of `gen_range(0, 0)` (empty delegation list) or
`.get(random_index).unwrap()` (out-of-range index). -/
def dropped_delegate_msg (rand : Nat → Nat → Nat) (env : Env)
    (delegations : List Delegation) (claimed_rewards : Nat) : Option CosmosMsg :=
  (delegations.get? (rand env.block_height delegations.length)).map
    (fun d => CosmosMsg.Delegate d.validator { denom := "uluna", amount := claimed_rewards })

/-- `autho_compounding::execute_update_exchange_rate`: only the contract's
own address may call; `claimed_rewards = new_balance - previous_balance`
(`checked_sub`, failing on underflow); `second_exchange_rate +=
claimed_rewards / total_bond_amount`; the constructed delegate message is
dropped (see `dropped_delegate_msg`), so a successful run emits no
instruction at all.  No protocol-fee split, no fee-collector transfer, no
`exchange_rate` or `total_bond_amount` update occurs in this source. -/
def execute_update_exchange_rate (rand : Nat → Nat → Nat) (cs : ContractState)
    (env : Env) (q : Querier) (sender : String) :
    Except String (ContractState × List CosmosMsg) :=
  if env.contract_address ≠ sender then .error "Unauthorized"
  else
    let new_balance := queryBalance q.balances cs.parameters.underlying_coin_denom
    let previous_balance := cs.state.principle_balance_before_exchange_update
    if new_balance < previous_balance then .error "Overflow: cannot subtract previous balance"
    else
      let claimed_rewards := new_balance - previous_balance
      let st := { cs.state with
        second_exchange_rate := decimal_summation_in_256 cs.state.second_exchange_rate
          (fromRatio claimed_rewards cs.state.total_bond_amount) }
      match dropped_delegate_msg rand env q.delegations claimed_rewards with
      | none => .error "panic: no delegation to sample"
      | some _ => .ok ({ cs with state := st }, [])

/-! ## contract.rs: update_global_index, slashing -/

/-- `withdraw_all_rewards`: one `WithdrawDelegatorReward` instruction per
current delegation, in query order. -/
def withdraw_all_rewards (delegations : List Delegation) : List CosmosMsg :=
  delegations.map (fun d => CosmosMsg.WithdrawDelegatorReward d.validator)

/-- `execute_update_global` (`UpdateGlobalIndex`, permissionless): emits
the reward-withdrawal instructions, reads the hub's current balance of
the underlying denom (`unwrap` panic when the denom is absent from
`query_all_balances`), appends the self-addressed `UpdateExchangeRate`
call as the last message, and stores `last_index_modification` (block
time) and `principle_balance_before_exchange_update` (the read balance). -/
def execute_update_global (cs : ContractState) (env : Env) (q : Querier) :
    Except String (ContractState × List CosmosMsg) :=
  let withdraw_msgs := withdraw_all_rewards q.delegations
  match q.balances.find? (fun x => x.denom == cs.parameters.underlying_coin_denom) with
  | none => .error "panic: no balance in the underlying denom"
  | some c =>
    let messages := withdraw_msgs ++ [CosmosMsg.ExecuteSelf env.contract_address SelfMsg.UpdateExchangeRate]
    let st := { cs.state with
      last_index_modification := env.block_time_seconds
      principle_balance_before_exchange_update := c.amount }
    .ok ({ cs with state := st }, messages)

/-- `slashing` from `contract.rs`: when the delegation set is empty,
return unchanged; otherwise query the receipt token's total supply
(`expect` panic when no token contract is registered) and, when the
observed bonded amount in the underlying denom is strictly below the
stored `total_bond_amount`, store the observed amount and recompute the
exchange rate via `State::update_exchange_rate`. -/
def slashing (cs : ContractState) (q : Querier) : Except String ContractState :=
  let coin_denom := cs.parameters.underlying_coin_denom
  let state_total_bonded := cs.state.total_bond_amount
  if q.delegations = [] then .ok cs
  else
    let actual_total_bonded := actualTotalBonded q.delegations coin_denom
    match cs.config.token_contract with
    | none => .error "panic: token contract must have been registered"
    | some _ =>
      let total_issued := q.total_issued
      let current_requested_fee := cs.current_batch.requested_with_fee
      if actual_total_bonded < state_total_bonded then
        let st : State := { cs.state with total_bond_amount := actual_total_bonded }
        .ok { cs with state := st.update_exchange_rate total_issued current_requested_fee }
      else .ok cs

/-- `execute_slashing` (`CheckSlashing`, permissionless): run `slashing`
and answer with attributes only — zero outgoing instructions. -/
def execute_slashing (cs : ContractState) (q : Querier) :
    Except String (ContractState × List CosmosMsg) :=
  match slashing cs q with
  | .error e => .error e
  | .ok cs2 => .ok (cs2, [])

/-! ## config.rs -/

/-- `config::execute_update_params`: admin only; each `Some` field
overwrites, each `None` keeps the stored value; the denom is never
touched.  NOTE: the source performs no validation whatsoever on the new
values (it never calls `validate_params`, which is itself a no-op). -/
def execute_update_params (cs : ContractState) (sender : String)
    (epoch_period unbonding_period peg_recovery_fee er_threshold protocol_fee : Option Nat) :
    Except String (ContractState × List CosmosMsg) :=
  if sender ≠ cs.admin then .error "Caller is not admin"
  else
    let params := cs.parameters
    let new_params : Parameters := {
      epoch_period := epoch_period.getD params.epoch_period
      underlying_coin_denom := params.underlying_coin_denom
      unbonding_period := unbonding_period.getD params.unbonding_period
      peg_recovery_fee := peg_recovery_fee.getD params.peg_recovery_fee
      er_threshold := er_threshold.getD params.er_threshold
      protocol_fee := protocol_fee.getD params.protocol_fee }
    .ok ({ cs with parameters := new_params }, [])

/-- `config::execute_update_config`: admin only; supplying a token
contract after one is registered fails; otherwise a supplied token
contract is stored and the registered flag set; a supplied fee collector
is stored. -/
def execute_update_config (cs : ContractState) (sender : String)
    (token_contract protocol_fee_collector : Option String) :
    Except String (ContractState × List CosmosMsg) :=
  if sender ≠ cs.admin then .error "Caller is not admin"
  else if token_contract.isSome && cs.config.token_contract_registered then
    .error "Token contract has been registered. Cannot change the token contract"
  else
    let cfg := match token_contract with
      | some token => { cs.config with token_contract := some token, token_contract_registered := true }
      | none => cs.config
    let cfg2 := match protocol_fee_collector with
      | some collector => { cfg with protocol_fee_collector := some collector }
      | none => cfg
    .ok ({ cs with config := cfg2 }, [])

/-- `config::execute_register_validator`: callable by the admin or by the
contract itself; the validator must exist on chain; then it is added to
the whitelist (`store_white_validators`; the storage helper lives in the
unavailable `state.rs` — modelled from the spec §4.2 `add_validator` as
appending to the whitelist). -/
def execute_register_validator (cs : ContractState) (env : Env) (q : Querier)
    (sender : String) (validator : String) :
    Except String (ContractState × List CosmosMsg) :=
  if sender ≠ cs.admin ∧ sender ≠ env.contract_address then .error "Caller is not admin"
  else if q.validators.contains validator then
    .ok ({ cs with whitelist := cs.whitelist ++ [validator] }, [])
  else .error "The specified address is not a validator"

/-- `config::execute_deregister_validator`: admin only; removing from a
one-element whitelist fails before anything is removed; otherwise the
validator is removed (`remove_white_validators` lives in the unavailable
`state.rs` — modelled from the spec §4.2 `remove_validator` as filtering
it out), a replacement is sampled pseudo-randomly (seeded by the block
height) among the REMAINING whitelisted validators, and if the removed
validator held a delegation the response is exactly a redelegate of that
delegation to the replacement followed by a self-addressed
`UpdateGlobalIndex` call. -/
def execute_deregister_validator (rand : Nat → Nat → Nat) (cs : ContractState)
    (env : Env) (q : Querier) (sender : String) (validator : String) :
    Except String (ContractState × List CosmosMsg) :=
  if sender ≠ cs.admin then .error "Caller is not admin"
  else if cs.whitelist.length = 1 then .error "Cannot remove the last whitelisted validator"
  else
    let validators := cs.whitelist.filter (fun w => w != validator)
    let cs2 := { cs with whitelist := validators }
    match validators.get? (rand env.block_height validators.length) with
    | none => .error "panic: no whitelisted validator to sample"
    | some replaced_val =>
      match q.delegation validator with
      | some delegation =>
        .ok (cs2, [CosmosMsg.Redelegate validator replaced_val delegation.amount,
                   CosmosMsg.ExecuteSelf env.contract_address SelfMsg.UpdateGlobalIndex])
      | none => .ok (cs2, [])

/-! ## The execute dispatcher -/

/-- Modelled from the spec: the handlers of `bond.rs` and `unbond.rs`
(`execute_bond`, `execute_unbond`, `execute_withdraw_unbonded`) are not
among the available sources — only their callers are.  Per spec §4.4,
§4.6 and §4.7 these operations read and mutate the ledger entities
(`GlobalState`, `CurrentBatch`, wait list, unbond history) and emit
staking/token/transfer instructions, and none of them writes `Config`,
the admin identity, the pause flag or the validator whitelist; they are
therefore modelled as abstract effects on `(State, CurrentBatch)`
producing instructions, quantified over in the theorems. -/
structure MissingOps where
  bond : String → String → List Coin → State → CurrentBatch →
    Except String ((State × CurrentBatch) × List CosmosMsg)
  unbond : String → Nat → State → CurrentBatch →
    Except String ((State × CurrentBatch) × List CosmosMsg)
  withdraw_unbonded : String → State → CurrentBatch →
    Except String ((State × CurrentBatch) × List CosmosMsg)

/-- Merge a ledger-only effect (see `MissingOps`) back into the full
contract state. -/
def run_ledger_op (cs : ContractState)
    (r : Except String ((State × CurrentBatch) × List CosmosMsg)) :
    Except String (ContractState × List CosmosMsg) :=
  match r with
  | .error e => .error e
  | .ok ((st, cb), msgs) => .ok ({ cs with state := st, current_batch := cb }, msgs)

/-- `utility::is_contract_paused`'s failure. -/
def pausedResult : Except String (ContractState × List CosmosMsg) :=
  .error "Contract is paused cannot perform the tx"

/-- `receive_cw20` from `contract.rs`: only the registered token contract
may deliver the `Unbond` hook (`expect` panic when no token contract is
registered yet); then the (unavailable) `execute_unbond` runs. -/
def receive_cw20 (ops : MissingOps) (cs : ContractState) (sender : String)
    (user : String) (amount : Nat) :
    Except String (ContractState × List CosmosMsg) :=
  match cs.config.token_contract with
  | none => .error "panic: the token contract must have been registered"
  | some token =>
    if sender ≠ token then .error "unauthorized"
    else run_ledger_op cs (ops.unbond user amount cs.state cs.current_batch)

/-- The `execute` entry point of `contract.rs`: `Pause`/`Unpause` are
admin-gated (and not themselves pause-checked); `Vote` is dispatched with
NO pause check and NO authorization, forwarding a weighted-vote
instruction whose voter is the contract's own address; every other
message is pause-checked and dispatched to its handler. -/
def execute (rand : Nat → Nat → Nat) (ops : MissingOps) (cs : ContractState)
    (env : Env) (q : Querier) (sender : String) (funds : List Coin) :
    ExecuteMsg → Except String (ContractState × List CosmosMsg)
  | .Pause =>
    if sender = cs.admin then .ok ({ cs with paused := true }, [])
    else .error "Caller is not admin"
  | .Unpause =>
    if sender = cs.admin then .ok ({ cs with paused := false }, [])
    else .error "Caller is not admin"
  | .Receive user amount =>
    if cs.paused then pausedResult else receive_cw20 ops cs sender user amount
  | .Bond validator =>
    if cs.paused then pausedResult
    else run_ledger_op cs (ops.bond validator sender funds cs.state cs.current_batch)
  | .UpdateGlobalIndex =>
    if cs.paused then pausedResult else execute_update_global cs env q
  | .UpdateExchangeRate =>
    if cs.paused then pausedResult else execute_update_exchange_rate rand cs env q sender
  | .WithdrawUnbonded =>
    if cs.paused then pausedResult
    else run_ledger_op cs (ops.withdraw_unbonded sender cs.state cs.current_batch)
  | .RegisterValidator validator =>
    if cs.paused then pausedResult else execute_register_validator cs env q sender validator
  | .DeregisterValidator validator =>
    if cs.paused then pausedResult else execute_deregister_validator rand cs env q sender validator
  | .CheckSlashing =>
    if cs.paused then pausedResult else execute_slashing cs q
  | .UpdateParams ep ub pf et prf =>
    if cs.paused then pausedResult else execute_update_params cs sender ep ub pf et prf
  | .UpdateConfig token_contract protocol_fee_collector =>
    if cs.paused then pausedResult
    else execute_update_config cs sender token_contract protocol_fee_collector
  | .UpdateAdmin admin =>
    if cs.paused then pausedResult
    else if sender = cs.admin then .ok ({ cs with admin := admin }, [])
    else .error "Caller is not admin"
  | .Vote proposal options =>
    .ok (cs, [CosmosMsg.VoteWeighted proposal env.contract_address options])

/-! ## Spec-side definition for the slashing claim -/

/-- Written from the spec's words (§4.8, claim C2), to be compared with
the code path `execute_slashing`: set `total_bond_amount` to the observed
amount and `exchange_rate` to
`total_bond_amount / (total_issued + requested_with_fee)`, falling back
to one when either side is zero. -/
def spec_slashing_result (cs : ContractState) (q : Querier) : ContractState :=
  let observed := actualTotalBonded q.delegations cs.parameters.underlying_coin_denom
  let supply := q.total_issued + cs.current_batch.requested_with_fee
  { cs with state := { cs.state with
      total_bond_amount := observed
      exchange_rate := if observed = 0 ∨ supply = 0 then decimalOne else fromRatio observed supply } }

/-! ## Concrete sample inputs (used by witnesses and failing-input runs) -/

/-- Stand-in for `XorShiftRng::seed_from_u64(height).gen_range(0, len)`.
On every range of length one — the case of all concrete runs below —
`gen_range(0, 1)` necessarily returns 0, so this stand-in agrees with the
real sampler there. -/
def pickZero : Nat → Nat → Nat := fun _ _ => 0

def sampleParams : Parameters :=
  { epoch_period := 30
    underlying_coin_denom := "uluna"
    unbonding_period := 2
    peg_recovery_fee := 1000000000000000
    er_threshold := 990000000000000000
    protocol_fee := 10000000000000000 }

def sampleConfig : Config :=
  { token_contract_registered := true
    token_contract := some "token"
    protocol_fee_collector := some "fee_collector" }

def sampleState : State :=
  { exchange_rate := decimalOne
    second_exchange_rate := decimalOne
    total_bond_amount := 1000000
    last_index_modification := 0
    prev_hub_balance := 0
    actual_unbonded_amount := 0
    principle_balance_before_exchange_update := 0
    last_unbonded_time := 0
    last_processed_batch := 0 }

def sampleCS : ContractState :=
  { paused := false
    admin := "owner1"
    config := sampleConfig
    state := sampleState
    parameters := sampleParams
    current_batch := { id := 1, requested_with_fee := 0 }
    whitelist := ["validator"] }

def sampleEnv : Env :=
  { contract_address := "cosmos2contract"
    block_height := 12345
    block_time_seconds := 1571797419 }

/-- Querier for the reward-compounding runs: hub balance 900 uluna, one
delegation of 1000000 uluna, receipt supply 1000000. -/
def sampleQ : Querier :=
  { balances := [{ denom := "uluna", amount := 900 }]
    delegations := [{ validator := "validator", amount := { denom := "uluna", amount := 1000000 } }]
    total_issued := 1000000
    validators := ["validator"]
    delegation := fun _ => none }

/-- Querier observing a 10% slash (900000 of the ledger's 1000000) with
receipt supply 1000000: the spec's §8 slashing scenario. -/
def slashedQ : Querier :=
  { balances := []
    delegations := [{ validator := "validator", amount := { denom := "uluna", amount := 900000 } }]
    total_issued := 1000000
    validators := ["validator"]
    delegation := fun _ => none }

/-- Querier observing the same 10% slash while the receipt token's total
supply is only 500000. -/
def slashedLowSupplyQ : Querier :=
  { balances := []
    delegations := [{ validator := "validator", amount := { denom := "uluna", amount := 900000 } }]
    total_issued := 500000
    validators := ["validator"]
    delegation := fun _ => none }

/-- Querier observing delegations exactly matching the ledger. -/
def unchangedQ : Querier :=
  { balances := []
    delegations := [{ validator := "validator", amount := { denom := "uluna", amount := 1000000 } }]
    total_issued := 1000000
    validators := ["validator"]
    delegation := fun _ => none }

/-- An instantiate message whose protocol fee is 2.0 and whose peg
recovery fee is 3.0 — both far above the claimed [0,1] bound. -/
def badInstantiateMsg : InstantiateMsg :=
  { epoch_period := 30
    underlying_coin_denom := "uluna"
    unbonding_period := 2
    peg_recovery_fee := 3 * decimalOne
    er_threshold := decimalOne
    validator := "validator"
    protocol_fee := 2 * decimalOne }

/-- A state whose whitelist holds a single validator. -/
def oneValCS : ContractState := { sampleCS with whitelist := ["validator"] }

/-- A state whose whitelist holds three validators. -/
def threeValCS : ContractState := { sampleCS with whitelist := ["valA", "valB", "valC"] }

/-- Querier under which `valB` holds a delegation of 500 uluna. -/
def delegQ : Querier :=
  { balances := []
    delegations := []
    total_issued := 1000000
    validators := ["valA", "valB", "valC"]
    delegation := fun v =>
      if v = "valB" then some { validator := "valB", amount := { denom := "uluna", amount := 500 } }
      else none }

/-- A trivial instantiation of the spec-modelled missing handlers (used
only to evaluate concrete runs): each op leaves the ledger unchanged and
emits nothing. -/
def sampleOps : MissingOps :=
  { bond := fun _ _ _ st cb => .ok ((st, cb), [])
    unbond := fun _ _ st cb => .ok ((st, cb), [])
    withdraw_unbonded := fun _ st cb => .ok ((st, cb), []) }

/-! # Theorems -/

/-- C1 (code_bug run): at a failing input where the caller is the
contract itself, the recorded pre-harvest balance is 0, the new balance
is 900 uluna, `protocol_fee = 0.01` and a fee collector IS configured,
`execute_update_exchange_rate` succeeds with an EMPTY instruction list —
no `BankSend` of the 9-uluna fee to the collector (which the repo's own
test `proper_protocol_fee` asserts, tests.rs:2932-2938) — and it leaves
`exchange_rate` and `total_bond_amount` untouched, only growing
`second_exchange_rate` by `claimed / total_bond_amount = 0.0009`.  The
claimed `protocol_fee_amount`/`user_rewards` split does not exist in this
source. -/
theorem update_exchange_rate_has_no_protocol_fee_logic :
    execute_update_exchange_rate pickZero sampleCS sampleEnv sampleQ "cosmos2contract"
      = .ok ({ sampleCS with state := { sampleState with second_exchange_rate := 1000900000000000000 } }, [])
    ∧ sampleCS.parameters.protocol_fee = 10000000000000000
    ∧ sampleCS.config.protocol_fee_collector = some "fee_collector" :=
  ⟨rfl, rfl, rfl⟩

/-- C3 (code_bug run): the source constructs the delegate instruction the
claim (and the repo's test `proper_update_exchange_rate`,
tests.rs:756-764) describes — target = the delegation at the
pseudo-random index, amount = the claimed rewards — but never attaches it
to the `Response`: the successful call returns zero messages. -/
theorem update_exchange_rate_drops_delegate_instruction :
    dropped_delegate_msg pickZero sampleEnv sampleQ.delegations 900
      = some (CosmosMsg.Delegate "validator" { denom := "uluna", amount := 900 })
    ∧ execute_update_exchange_rate pickZero sampleCS sampleEnv sampleQ "cosmos2contract"
      = .ok ({ sampleCS with state := { sampleState with second_exchange_rate := 1000900000000000000 } }, []) :=
  ⟨rfl, rfl⟩

/-- C5 (code_bug run): `validate_params` accepts a message with
`protocol_fee = 2.0` and `peg_recovery_fee = 3.0`; `instantiate` persists
both unchanged, and `UpdateParams` from the admin likewise persists both —
no validation error is ever raised, because the source constructs its
`StdError`s without returning them (and never checks `peg_recovery_fee`
at all; `execute_update_params` performs no validation whatsoever). -/
theorem params_validation_is_noop :
    validate_params badInstantiateMsg = .ok ()
    ∧ decimalOne < badInstantiateMsg.protocol_fee
    ∧ decimalOne < badInstantiateMsg.peg_recovery_fee
    ∧ (instantiate sampleEnv "owner1" [{ denom := "uluna", amount := 1000000 }] badInstantiateMsg).map
        (fun r => (r.1.parameters.protocol_fee, r.1.parameters.peg_recovery_fee))
      = .ok (2 * decimalOne, 3 * decimalOne)
    ∧ (execute_update_params sampleCS "owner1" none none (some (3 * decimalOne)) none (some (2 * decimalOne))).map
        (fun r => (r.1.parameters.protocol_fee, r.1.parameters.peg_recovery_fee))
      = .ok (2 * decimalOne, 3 * decimalOne) :=
  ⟨rfl, by decide, by decide, rfl, rfl⟩

/-- C6: any caller other than the contract's own address is rejected by
`execute_update_exchange_rate` with the distinct "Unauthorized" error;
an errored execution persists no state and emits no instruction. -/
theorem update_exchange_rate_unauthorized (rand : Nat → Nat → Nat)
    (cs : ContractState) (env : Env) (q : Querier) (sender : String)
    (h : sender ≠ env.contract_address) :
    execute_update_exchange_rate rand cs env q sender = .error "Unauthorized" := by
  unfold execute_update_exchange_rate
  rw [if_pos (Ne.symm h)]

/-- Witness for C6 at a concrete external caller. -/
theorem update_exchange_rate_unauthorized_witness :
    "addr1000" ≠ sampleEnv.contract_address
    ∧ execute_update_exchange_rate pickZero sampleCS sampleEnv sampleQ "addr1000" = .error "Unauthorized" :=
  ⟨by decide, update_exchange_rate_unauthorized pickZero sampleCS sampleEnv sampleQ "addr1000" (by decide)⟩

/-- Helper: `State.update_exchange_rate` written as a single record update
with the rate as a conditional. -/
theorem update_exchange_rate_spec (s : State) (ti rw : Nat) :
    s.update_exchange_rate ti rw
      = { s with exchange_rate :=
            if s.total_bond_amount = 0 ∨ ti + rw = 0 then decimalOne
            else fromRatio s.total_bond_amount (ti + rw) } := by
  simp only [State.update_exchange_rate]
  split <;> rfl

/-- C2: whenever the delegation set is non-empty, a token contract is
registered and the observed bonded amount in the underlying denom is
strictly below the stored `total_bond_amount`, `CheckSlashing` stores the
observed amount, recomputes `exchange_rate =
total_bond_amount / (total_issued + requested_with_fee)` with fallback 1
when either side is zero (`spec_slashing_result`, written from the spec's
words), and emits zero instructions. -/
theorem check_slashing_matches_spec (cs : ContractState) (q : Querier) (tc : String)
    (hreg : cs.config.token_contract = some tc)
    (hne : q.delegations ≠ [])
    (hlt : actualTotalBonded q.delegations cs.parameters.underlying_coin_denom < cs.state.total_bond_amount) :
    execute_slashing cs q = .ok (spec_slashing_result cs q, []) := by
  simp [execute_slashing, slashing, spec_slashing_result, update_exchange_rate_spec,
    hne, hreg, hlt]

/-- Witness for C2 at the spec's §8 scenario: ledger 1000000, observed
900000, receipt supply 1000000 — the stored rate becomes exactly 0.9. -/
theorem check_slashing_matches_spec_witness :
    sampleCS.config.token_contract = some "token"
    ∧ slashedQ.delegations ≠ []
    ∧ actualTotalBonded slashedQ.delegations sampleCS.parameters.underlying_coin_denom
        < sampleCS.state.total_bond_amount
    ∧ execute_slashing sampleCS slashedQ = .ok (spec_slashing_result sampleCS slashedQ, [])
    ∧ (spec_slashing_result sampleCS slashedQ).state.exchange_rate = 900000000000000000 :=
  ⟨rfl, by decide, by decide,
   check_slashing_matches_spec sampleCS slashedQ "token" rfl (by decide) (by decide), rfl⟩

/-- C4 (amended): with a registered token contract: (1) whenever the
delegation set is empty or the observed amount is at least the stored
`total_bond_amount`, `CheckSlashing` changes no persisted state and emits
nothing — unconditionally on the stored exchange rate; (2) provided the
pre-call state additionally satisfies `exchange_rate ≥ 1` and
`exchange_rate ≥ total_bond_amount / (total_issued + requested_with_fee)`,
no successful `CheckSlashing` leaves the exchange rate strictly greater
than before.  (Without part (2)'s two rate hypotheses it fails: see the
counterexample.) -/
theorem check_slashing_frame_and_monotone (cs : ContractState) (q : Querier) (tc : String)
    (hreg : cs.config.token_contract = some tc) :
    ((q.delegations = []
        ∨ cs.state.total_bond_amount ≤ actualTotalBonded q.delegations cs.parameters.underlying_coin_denom) →
      execute_slashing cs q = .ok (cs, []))
    ∧ (decimalOne ≤ cs.state.exchange_rate →
       fromRatio cs.state.total_bond_amount
          (q.total_issued + cs.current_batch.requested_with_fee) ≤ cs.state.exchange_rate →
       ∀ cs2 msgs, execute_slashing cs q = .ok (cs2, msgs) →
        cs2.state.exchange_rate ≤ cs.state.exchange_rate ∧ msgs = []) := by
  constructor
  · rintro (h | h)
    · simp [execute_slashing, slashing, h]
    · have hnlt : ¬ (actualTotalBonded q.delegations cs.parameters.underlying_coin_denom
          < cs.state.total_bond_amount) := Nat.not_lt.mpr h
      by_cases hd : q.delegations = []
      · simp [execute_slashing, slashing, hd]
      · simp [execute_slashing, slashing, hd, hreg, hnlt]
  · intro hone hcons cs2 msgs hex
    have hsl : slashing cs q = .ok cs2 ∧ msgs = [] := by
      unfold execute_slashing at hex
      cases hs : slashing cs q with
      | error e => rw [hs] at hex; cases hex
      | ok c => rw [hs] at hex; cases hex; exact ⟨rfl, rfl⟩
    obtain ⟨hsl, hmsgs⟩ := hsl
    refine ⟨?_, hmsgs⟩
    unfold slashing at hsl
    by_cases hd : q.delegations = []
    · rw [if_pos hd] at hsl
      cases hsl
      exact le_refl _
    · rw [if_neg hd, hreg] at hsl
      simp only at hsl
      by_cases hlt : actualTotalBonded q.delegations cs.parameters.underlying_coin_denom
          < cs.state.total_bond_amount
      · rw [if_pos hlt, update_exchange_rate_spec] at hsl
        cases hsl
        simp only []
        split
        · exact hone
        · exact le_trans
            (Nat.div_le_div_right (Nat.mul_le_mul_right _ (le_of_lt hlt))) hcons
      · rw [if_neg hlt] at hsl
        cases hsl
        exact le_refl _

/-- Witness for C4 at a concrete pre-state with matching observed
delegations: `CheckSlashing` is a no-op with no instructions; the
monotone half is also exercised there under its rate hypotheses. -/
theorem check_slashing_frame_and_monotone_witness :
    sampleCS.config.token_contract = some "token"
    ∧ sampleCS.state.total_bond_amount
        ≤ actualTotalBonded unchangedQ.delegations sampleCS.parameters.underlying_coin_denom
    ∧ execute_slashing sampleCS unchangedQ = .ok (sampleCS, [])
    ∧ decimalOne ≤ sampleCS.state.exchange_rate
    ∧ fromRatio sampleCS.state.total_bond_amount
        (unchangedQ.total_issued + sampleCS.current_batch.requested_with_fee)
        ≤ sampleCS.state.exchange_rate
    ∧ (sampleCS.state.exchange_rate ≤ sampleCS.state.exchange_rate ∧ ([] : List CosmosMsg) = []) :=
  ⟨rfl, by decide,
   (check_slashing_frame_and_monotone sampleCS unchangedQ "token" rfl).1 (Or.inr (by decide)),
   by decide, by decide,
   (check_slashing_frame_and_monotone sampleCS unchangedQ "token" rfl).2 (by decide) (by decide)
     sampleCS []
     ((check_slashing_frame_and_monotone sampleCS unchangedQ "token" rfl).1 (Or.inr (by decide)))⟩

/-- C4 counterexample: from the very persisted state `instantiate`
produces (exchange rate one, `total_bond_amount` = the 1000000 deposit)
with the external receipt-token supply at 500000, observing a 10% slash
makes `CheckSlashing` RAISE the stored exchange rate from 1 to 1.8 —
the slashing path is not monotone on all reachable states. -/
theorem check_slashing_raises_rate_counterexample :
    execute_slashing sampleCS slashedLowSupplyQ
      = .ok ({ sampleCS with state := { sampleState with
                 total_bond_amount := 900000
                 exchange_rate := 1800000000000000000 } }, [])
    ∧ sampleCS.state.exchange_rate < 1800000000000000000 :=
  ⟨rfl, by decide⟩

/-- C7: a `TriggerRewardCompounding` (`UpdateGlobalIndex`) run whose
balance query finds the underlying denom emits one reward-withdrawal
instruction per current delegation followed — as the last message — by
the self-addressed `UpdateExchangeRate` call, and stores the current
balance into `principle_balance_before_exchange_update` and the block
time into `last_index_modification`. -/
theorem update_global_index_messages_and_stores (cs : ContractState) (env : Env)
    (q : Querier) (c : Coin)
    (hbal : q.balances.find? (fun x => x.denom == cs.parameters.underlying_coin_denom) = some c) :
    execute_update_global cs env q
      = .ok ({ cs with state := { cs.state with
                 last_index_modification := env.block_time_seconds
                 principle_balance_before_exchange_update := c.amount } },
             q.delegations.map (fun d => CosmosMsg.WithdrawDelegatorReward d.validator)
               ++ [CosmosMsg.ExecuteSelf env.contract_address SelfMsg.UpdateExchangeRate]) := by
  unfold execute_update_global withdraw_all_rewards
  rw [hbal]

/-- Witness for C7 at a concrete one-delegation state. -/
theorem update_global_index_messages_and_stores_witness :
    sampleQ.balances.find? (fun x => x.denom == sampleCS.parameters.underlying_coin_denom)
      = some { denom := "uluna", amount := 900 }
    ∧ execute_update_global sampleCS sampleEnv sampleQ
      = .ok ({ sampleCS with state := { sampleState with
                 last_index_modification := 1571797419
                 principle_balance_before_exchange_update := 900 } },
             [CosmosMsg.WithdrawDelegatorReward "validator",
              CosmosMsg.ExecuteSelf "cosmos2contract" SelfMsg.UpdateExchangeRate]) :=
  ⟨rfl, update_global_index_messages_and_stores sampleCS sampleEnv sampleQ
    { denom := "uluna", amount := 900 } rfl⟩

/-- C8: for an admin caller, (1) deregistering when the whitelist has
exactly one entry fails with the validation error before anything is
removed; (2) otherwise, when the pseudo-random pick (seeded by the block
height) lands on remaining validator `r` and the removed validator holds
delegation `d`, the call removes the validator and emits exactly the
redelegation of `d` to `r` followed by the self-addressed
`UpdateGlobalIndex` call. -/
theorem deregister_validator_spec (rand : Nat → Nat → Nat) (cs : ContractState)
    (env : Env) (q : Querier) (sender validator : String) (d : Delegation) (r : String)
    (hadmin : sender = cs.admin) :
    (cs.whitelist.length = 1 →
      execute_deregister_validator rand cs env q sender validator
        = .error "Cannot remove the last whitelisted validator")
    ∧ (cs.whitelist.length ≠ 1 →
      (cs.whitelist.filter (fun w => w != validator)).get?
          (rand env.block_height (cs.whitelist.filter (fun w => w != validator)).length) = some r →
      q.delegation validator = some d →
      execute_deregister_validator rand cs env q sender validator
        = .ok ({ cs with whitelist := cs.whitelist.filter (fun w => w != validator) },
               [CosmosMsg.Redelegate validator r d.amount,
                CosmosMsg.ExecuteSelf env.contract_address SelfMsg.UpdateGlobalIndex])) := by
  constructor
  · intro h1
    unfold execute_deregister_validator
    rw [if_neg (not_not_intro hadmin), if_pos h1]
  · intro h1 h2 h3
    unfold execute_deregister_validator
    rw [if_neg (not_not_intro hadmin), if_neg h1]
    simp only [h2, h3]

/-- Witness for C8, exercising both the last-validator rejection and the
redelegate-plus-self-call emission. -/
theorem deregister_validator_spec_witness :
    ("owner1" = oneValCS.admin ∧ oneValCS.whitelist.length = 1
      ∧ execute_deregister_validator pickZero oneValCS sampleEnv delegQ "owner1" "validator"
          = .error "Cannot remove the last whitelisted validator")
    ∧ ("owner1" = threeValCS.admin ∧ threeValCS.whitelist.length ≠ 1
      ∧ execute_deregister_validator pickZero threeValCS sampleEnv delegQ "owner1" "valB"
          = .ok ({ threeValCS with whitelist := ["valA", "valC"] },
                 [CosmosMsg.Redelegate "valB" "valA" { denom := "uluna", amount := 500 },
                  CosmosMsg.ExecuteSelf "cosmos2contract" SelfMsg.UpdateGlobalIndex])) :=
  ⟨⟨rfl, rfl,
    (deregister_validator_spec pickZero oneValCS sampleEnv delegQ "owner1" "validator"
      { validator := "valB", amount := { denom := "uluna", amount := 500 } } "valA" rfl).1 rfl⟩,
   ⟨rfl, by decide,
    (deregister_validator_spec pickZero threeValCS sampleEnv delegQ "owner1" "valB"
      { validator := "valB", amount := { denom := "uluna", amount := 500 } } "valA" rfl).2
      (by decide) rfl rfl⟩⟩

/-- Helper: merging a ledger-only effect never touches `Config`. -/
theorem run_ledger_op_preserves_config (cs : ContractState)
    (r : Except String ((State × CurrentBatch) × List CosmosMsg))
    (cs2 : ContractState) (msgs : List CosmosMsg)
    (h : run_ledger_op cs r = .ok (cs2, msgs)) : cs2.config = cs.config := by
  unfold run_ledger_op at h
  cases r with
  | error e => cases h
  | ok p =>
    obtain ⟨⟨st, cb⟩, m⟩ := p
    simp only [Except.ok.injEq, Prod.mk.injEq] at h
    obtain ⟨rfl, -⟩ := h
    rfl

/-- Helper: `slashing` only rewrites `State`, never `Config`. -/
theorem slashing_preserves_config (cs : ContractState) (q : Querier)
    (cs2 : ContractState) (h : slashing cs q = .ok cs2) : cs2.config = cs.config := by
  unfold slashing at h
  split at h
  · injection h with h1
    subst h1
    rfl
  · split at h
    · cases h
    · simp only at h
      split at h
      · injection h with h1
        subst h1
        rfl
      · injection h with h1
        subst h1
        rfl

/-- C9: once `token_contract_registered` holds, (1) every operation the
contract dispatches preserves the stored receipt-token address and keeps
the registered flag set, and (2) every `UpdateConfig` supplying a token
contract fails with an error — the receipt-token address is immutable
after registration.  (The missing `bond.rs`/`unbond.rs` handlers enter as
the spec-modelled `MissingOps` ledger effects, which by §4.4/§4.6/§4.7
never write `Config`.) -/
theorem token_contract_registered_immutable (rand : Nat → Nat → Nat) (ops : MissingOps)
    (cs : ContractState) (env : Env) (q : Querier) (sender : String) (funds : List Coin)
    (msg : ExecuteMsg)
    (hreg : cs.config.token_contract_registered = true) :
    (∀ cs2 msgs, execute rand ops cs env q sender funds msg = .ok (cs2, msgs) →
        cs2.config.token_contract = cs.config.token_contract
        ∧ cs2.config.token_contract_registered = true)
    ∧ (∀ t fc, msg = ExecuteMsg.UpdateConfig (some t) fc →
        ∃ e, execute rand ops cs env q sender funds msg = .error e) := by
  constructor
  · intro cs2 msgs hex
    cases msg with
    | Pause =>
      simp only [execute] at hex
      split at hex
      · simp only [Except.ok.injEq, Prod.mk.injEq] at hex
        obtain ⟨rfl, -⟩ := hex
        exact ⟨rfl, hreg⟩
      · cases hex
    | Unpause =>
      simp only [execute] at hex
      split at hex
      · simp only [Except.ok.injEq, Prod.mk.injEq] at hex
        obtain ⟨rfl, -⟩ := hex
        exact ⟨rfl, hreg⟩
      · cases hex
    | Receive user amount =>
      simp only [execute] at hex
      split at hex
      · simp [pausedResult] at hex
      · simp only [receive_cw20] at hex
        split at hex
        · cases hex
        · split at hex
          · cases hex
          · have hc := run_ledger_op_preserves_config _ _ _ _ hex
            exact ⟨by rw [hc], by rw [hc]; exact hreg⟩
    | Bond validator =>
      simp only [execute] at hex
      split at hex
      · simp [pausedResult] at hex
      · have hc := run_ledger_op_preserves_config _ _ _ _ hex
        exact ⟨by rw [hc], by rw [hc]; exact hreg⟩
    | UpdateGlobalIndex =>
      simp only [execute] at hex
      split at hex
      · simp [pausedResult] at hex
      · simp only [execute_update_global] at hex
        split at hex
        · cases hex
        · simp only [Except.ok.injEq, Prod.mk.injEq] at hex
          obtain ⟨rfl, -⟩ := hex
          exact ⟨rfl, hreg⟩
    | UpdateExchangeRate =>
      simp only [execute] at hex
      split at hex
      · simp [pausedResult] at hex
      · simp only [execute_update_exchange_rate] at hex
        split at hex
        · cases hex
        · split at hex
          · cases hex
          · split at hex
            · cases hex
            · simp only [Except.ok.injEq, Prod.mk.injEq] at hex
              obtain ⟨rfl, -⟩ := hex
              exact ⟨rfl, hreg⟩
    | WithdrawUnbonded =>
      simp only [execute] at hex
      split at hex
      · simp [pausedResult] at hex
      · have hc := run_ledger_op_preserves_config _ _ _ _ hex
        exact ⟨by rw [hc], by rw [hc]; exact hreg⟩
    | RegisterValidator validator =>
      simp only [execute] at hex
      split at hex
      · simp [pausedResult] at hex
      · simp only [execute_register_validator] at hex
        split at hex
        · cases hex
        · split at hex
          · simp only [Except.ok.injEq, Prod.mk.injEq] at hex
            obtain ⟨rfl, -⟩ := hex
            exact ⟨rfl, hreg⟩
          · cases hex
    | DeregisterValidator validator =>
      simp only [execute] at hex
      split at hex
      · simp [pausedResult] at hex
      · simp only [execute_deregister_validator] at hex
        split at hex
        · cases hex
        · split at hex
          · cases hex
          · split at hex
            · cases hex
            · split at hex
              · simp only [Except.ok.injEq, Prod.mk.injEq] at hex
                obtain ⟨rfl, -⟩ := hex
                exact ⟨rfl, hreg⟩
              · simp only [Except.ok.injEq, Prod.mk.injEq] at hex
                obtain ⟨rfl, -⟩ := hex
                exact ⟨rfl, hreg⟩
    | CheckSlashing =>
      simp only [execute] at hex
      split at hex
      · simp [pausedResult] at hex
      · simp only [execute_slashing] at hex
        split at hex
        · cases hex
        · rename_i cs3 hs
          simp only [Except.ok.injEq, Prod.mk.injEq] at hex
          obtain ⟨rfl, -⟩ := hex
          have hc := slashing_preserves_config _ _ _ hs
          exact ⟨by rw [hc], by rw [hc]; exact hreg⟩
    | UpdateParams ep ub pf et prf =>
      simp only [execute] at hex
      split at hex
      · simp [pausedResult] at hex
      · simp only [execute_update_params] at hex
        split at hex
        · cases hex
        · simp only [Except.ok.injEq, Prod.mk.injEq] at hex
          obtain ⟨rfl, -⟩ := hex
          exact ⟨rfl, hreg⟩
    | UpdateConfig tc fc =>
      simp only [execute] at hex
      split at hex
      · simp [pausedResult] at hex
      · simp only [execute_update_config] at hex
        split at hex
        · cases hex
        · split at hex
          · cases hex
          · rename_i hcond
            cases htc : tc with
            | some t => rw [htc, hreg] at hcond; simp at hcond
            | none =>
              rw [htc] at hex
              simp only at hex
              split at hex
              · simp only [Except.ok.injEq, Prod.mk.injEq] at hex
                obtain ⟨rfl, -⟩ := hex
                exact ⟨rfl, hreg⟩
              · simp only [Except.ok.injEq, Prod.mk.injEq] at hex
                obtain ⟨rfl, -⟩ := hex
                exact ⟨rfl, hreg⟩
    | UpdateAdmin admin =>
      simp only [execute] at hex
      split at hex
      · simp [pausedResult] at hex
      · split at hex
        · simp only [Except.ok.injEq, Prod.mk.injEq] at hex
          obtain ⟨rfl, -⟩ := hex
          exact ⟨rfl, hreg⟩
        · cases hex
    | Vote proposal options =>
      simp only [execute, Except.ok.injEq, Prod.mk.injEq] at hex
      obtain ⟨rfl, -⟩ := hex
      exact ⟨rfl, hreg⟩
  · rintro t fc rfl
    by_cases hp : cs.paused
    · refine ⟨"Contract is paused cannot perform the tx", ?_⟩
      simp [execute, hp, pausedResult]
    · by_cases ha : sender = cs.admin
      · refine ⟨"Token contract has been registered. Cannot change the token contract", ?_⟩
        simp [execute, hp, execute_update_config, ha, hreg]
      · refine ⟨"Caller is not admin", ?_⟩
        simp [execute, hp, execute_update_config, ha]

/-- Witness for C9: with the token contract already registered, an
admin-sent `UpdateConfig` supplying a new token contract fails. -/
theorem token_contract_registered_immutable_witness :
    sampleCS.config.token_contract_registered = true
    ∧ (∃ e, execute pickZero sampleOps sampleCS sampleEnv sampleQ "owner1" []
        (ExecuteMsg.UpdateConfig (some "token2") none) = .error e) :=
  ⟨rfl, (token_contract_registered_immutable pickZero sampleOps sampleCS sampleEnv sampleQ
    "owner1" [] (ExecuteMsg.UpdateConfig (some "token2") none) rfl).2 "token2" none rfl⟩

/-- C10: the `Vote` branch of `execute` performs no pause check and no
authorization: for every caller, every pause state and every persisted
state it succeeds, changes nothing, and emits exactly one weighted-vote
instruction whose voter is the contract's own address and whose proposal
id and options are taken from the message. -/
theorem vote_skips_pause_and_auth (rand : Nat → Nat → Nat) (ops : MissingOps)
    (cs : ContractState) (env : Env) (q : Querier) (sender : String) (funds : List Coin)
    (proposal : Nat) (options : List WeightedVoteOption) :
    execute rand ops cs env q sender funds (ExecuteMsg.Vote proposal options)
      = .ok (cs, [CosmosMsg.VoteWeighted proposal env.contract_address options]) := rfl

end PrismHub
